import Mathlib

/-!
Verification of the nodi-libs resilient MQTT client core, shallowly embedded
from the Python sources.

Part 1: the backoff policy engine (`src/nodi_libs/backoff.py`).
Delays are modelled as exact rationals (Python floats).  The two sources of
randomness — `random.uniform(min_delay, max_delay)` in `RandomBackoff` and
`random.randint(0, int(delay))` for jitter — are modelled as explicit oracle
inputs `u : ℚ` and `r : ℕ` whose admissible ranges are captured by
`Backoff.validInput`.  Python's `(attempt + 1) ** exponent` is modelled at
natural-number exponents (the shipped default `exponent = 2.0` is integral).
-/

namespace NodiLibs

/-- `BackoffStrategy` enum of `backoff.py`. -/
inductive BackoffStrategy where
  | CONSTANT
  | LINEAR
  | POLYNOMIAL
  | EXPONENTIAL
  | FIBONACCI
  | RANDOM
deriving DecidableEq

/-- The mutable, strategy-specific part of a backoff instance, together with
the per-subclass constructor parameters (`step`, `exponent`, `base`).
Only `FibonacciBackoff` carries evolving state: its `(_fib_prev, _fib_curr)`
pair, seeded `(0, 1)` by its constructor. -/
inductive Strat where
  | constant
  | linear (step : ℚ)
  | polynomial (exponent : ℕ)
  | exponential (base : ℚ)
  | fibonacci (fib_prev fib_curr : ℤ)
  | random
deriving DecidableEq

/-- State of a `Backoff` object: fields set by `Backoff.__init__` plus the
strategy-specific payload. -/
structure Backoff where
  min_delay : ℚ
  max_delay : ℚ
  jitter : Bool
  attempt : ℕ
  strat : Strat
deriving DecidableEq

/-- Python's binary `min`, kept as an explicit conditional so concrete
instances evaluate by kernel reduction. -/
def ratMin (a b : ℚ) : ℚ := if a ≤ b then a else b

theorem ratMin_le_right (a b : ℚ) : ratMin a b ≤ b := by
  unfold ratMin; split
  · assumption
  · exact le_refl b

namespace Backoff

/-- `_calculate_delay` of each concrete subclass, given the uniform draw `u`
(used only by `RandomBackoff`).  Returns the computed delay together with the
updated strategy payload (the Fibonacci pair advances as a side effect of
`FibonacciBackoff._calculate_delay`). -/
def calculate_delay (b : Backoff) (u : ℚ) : ℚ × Strat :=
  match b.strat with
  | .constant => (b.min_delay, b.strat)
  | .linear step => (b.min_delay + (b.attempt : ℚ) * step, b.strat)
  | .polynomial exponent => (b.min_delay * ((b.attempt : ℚ) + 1) ^ exponent, b.strat)
  | .exponential base => (b.min_delay * base ^ b.attempt, b.strat)
  | .fibonacci p c => (b.min_delay * (c : ℚ), .fibonacci c (p + c))
  | .random => (u, b.strat)

/-- The delay after the `min(delay, self.max_delay)` clamp in `next_delay`. -/
def clampedDelay (b : Backoff) (u : ℚ) : ℚ :=
  ratMin (b.calculate_delay u).1 b.max_delay

/-- Admissible oracle inputs for one `next_delay` call: `u` is the
`random.uniform(min_delay, max_delay)` draw and `r` the
`random.randint(0, int(delay))` draw (an integer in `[0, int(delay)]`,
where `int` truncates the positive clamped delay, i.e. takes its floor). -/
def validInput (b : Backoff) (u : ℚ) (r : ℕ) : Bool :=
  decide (b.min_delay ≤ u) && decide (u ≤ b.max_delay) &&
    decide (r ≤ (⌊b.clampedDelay u⌋).toNat)

/-- `Backoff.next_delay`: compute the delay, clamp to `max_delay`, apply
jitter when enabled and the clamped delay is positive, then increment the
attempt counter. -/
def next_delay (b : Backoff) (u : ℚ) (r : ℕ) : ℚ × Backoff :=
  let d := b.calculate_delay u
  let delay := ratMin d.1 b.max_delay
  let delay := if b.jitter && decide (0 < delay) then (r : ℚ) else delay
  (delay, { b with attempt := b.attempt + 1, strat := d.2 })

/-- `Backoff.reset` (and the `FibonacciBackoff.reset` override, which also
reseeds the Fibonacci pair to `(0, 1)`). -/
def reset (b : Backoff) : Backoff :=
  match b.strat with
  | .fibonacci _ _ => { b with attempt := 0, strat := .fibonacci 0 1 }
  | _ => { b with attempt := 0 }

end Backoff

/-- `ConstantBackoff(min_delay, max_delay, jitter)`. -/
def ConstantBackoff.make (min_delay max_delay : ℚ) (jitter : Bool) : Backoff :=
  ⟨min_delay, max_delay, jitter, 0, .constant⟩

/-- `LinearBackoff(min_delay, max_delay, jitter, step)`. -/
def LinearBackoff.make (min_delay max_delay : ℚ) (jitter : Bool) (step : ℚ) : Backoff :=
  ⟨min_delay, max_delay, jitter, 0, .linear step⟩

/-- `PolynomialBackoff(min_delay, max_delay, jitter, exponent)`. -/
def PolynomialBackoff.make (min_delay max_delay : ℚ) (jitter : Bool) (exponent : ℕ) : Backoff :=
  ⟨min_delay, max_delay, jitter, 0, .polynomial exponent⟩

/-- `ExponentialBackoff(min_delay, max_delay, jitter, base)`. -/
def ExponentialBackoff.make (min_delay max_delay : ℚ) (jitter : Bool) (base : ℚ) : Backoff :=
  ⟨min_delay, max_delay, jitter, 0, .exponential base⟩

/-- `FibonacciBackoff(min_delay, max_delay, jitter)`: seeds the pair `(0, 1)`. -/
def FibonacciBackoff.make (min_delay max_delay : ℚ) (jitter : Bool) : Backoff :=
  ⟨min_delay, max_delay, jitter, 0, .fibonacci 0 1⟩

/-- `RandomBackoff(min_delay, max_delay, jitter)`. -/
def RandomBackoff.make (min_delay max_delay : ℚ) (jitter : Bool) : Backoff :=
  ⟨min_delay, max_delay, jitter, 0, .random⟩

/-- `create_backoff` factory.  The `step`, `exponent` and `base` arguments
model the `kwargs` lookups with their defaults `1.0`, `2.0`, `2.0`. -/
def create_backoff (strategy : BackoffStrategy) (min_delay max_delay : ℚ)
    (jitter : Bool) (step : ℚ) (exponent : ℕ) (base : ℚ) : Backoff :=
  match strategy with
  | .CONSTANT => ConstantBackoff.make min_delay max_delay jitter
  | .LINEAR => LinearBackoff.make min_delay max_delay jitter step
  | .POLYNOMIAL => PolynomialBackoff.make min_delay max_delay jitter exponent
  | .EXPONENTIAL => ExponentialBackoff.make min_delay max_delay jitter base
  | .FIBONACCI => FibonacciBackoff.make min_delay max_delay jitter
  | .RANDOM => RandomBackoff.make min_delay max_delay jitter

namespace Backoff

/-- The `BackoffStrategy` tag of a backoff object's class. -/
def kind (b : Backoff) : BackoffStrategy :=
  match b.strat with
  | .constant => .CONSTANT
  | .linear _ => .LINEAR
  | .polynomial _ => .POLYNOMIAL
  | .exponential _ => .EXPONENTIAL
  | .fibonacci _ _ => .FIBONACCI
  | .random => .RANDOM

/-- The `step` constructor parameter of a linear instance (factory default
`1.0` otherwise). -/
def stepParam (b : Backoff) : ℚ :=
  match b.strat with
  | .linear step => step
  | _ => 1

/-- The `exponent` constructor parameter of a polynomial instance (factory
default `2.0` otherwise). -/
def exponentParam (b : Backoff) : ℕ :=
  match b.strat with
  | .polynomial exponent => exponent
  | _ => 2

/-- The `base` constructor parameter of an exponential instance (factory
default `2.0` otherwise). -/
def baseParam (b : Backoff) : ℚ :=
  match b.strat with
  | .exponential base => base
  | _ => 2

/-- A freshly constructed instance with the same constructor parameters as
`b` (same class, same `min_delay`/`max_delay`/`jitter` and subclass
parameters). -/
def freshLike (b : Backoff) : Backoff :=
  create_backoff b.kind b.min_delay b.max_delay b.jitter
    b.stepParam b.exponentParam b.baseParam

/-- A run of `next_delay` calls fed by a list of oracle inputs: returns the
list of returned delays and the final state. -/
def run (b : Backoff) : List (ℚ × ℕ) → List ℚ × Backoff
  | [] => ([], b)
  | (u, r) :: rest =>
      let d := b.next_delay u r
      let tail := d.2.run rest
      (d.1 :: tail.1, tail.2)

/-- Every oracle input of a run is admissible for the state it is fed to. -/
def validRun (b : Backoff) : List (ℚ × ℕ) → Bool
  | [] => true
  | (u, r) :: rest => b.validInput u r && (b.next_delay u r).2.validRun rest

/-- The pre-jitter, pre-clamp delay formula of each strategy as a function of
an explicit attempt index `n` (the Fibonacci and Random strategies do not
consult the attempt counter). -/
def delayFormulaAt (b : Backoff) (n : ℕ) (u : ℚ) : ℚ :=
  match b.strat with
  | .constant => b.min_delay
  | .linear step => b.min_delay + (n : ℚ) * step
  | .polynomial exponent => b.min_delay * ((n : ℚ) + 1) ^ exponent
  | .exponential base => b.min_delay * base ^ n
  | .fibonacci _ c => b.min_delay * (c : ℚ)
  | .random => u

/-- One `next_delay` call never exceeds `max_delay` when its oracle inputs
are admissible. -/
theorem next_delay_le_max (b : Backoff) (u : ℚ) (r : ℕ)
    (hv : b.validInput u r = true) : (b.next_delay u r).1 ≤ b.max_delay := by
  simp only [validInput, Bool.and_eq_true, decide_eq_true_eq] at hv
  obtain ⟨⟨hu1, hu2⟩, hr⟩ := hv
  simp only [next_delay]
  split
  · next h =>
    simp only [Bool.and_eq_true, decide_eq_true_eq] at h
    have hfloor : ((r : ℤ) : ℚ) ≤ b.clampedDelay u := by
      have h0 : (0 : ℤ) ≤ ⌊b.clampedDelay u⌋ :=
        Int.floor_nonneg.mpr (le_of_lt h.2)
      have h1 : (r : ℤ) ≤ ⌊b.clampedDelay u⌋ := by omega
      calc ((r : ℤ) : ℚ) ≤ (⌊b.clampedDelay u⌋ : ℚ) := by exact_mod_cast h1
        _ ≤ b.clampedDelay u := Int.floor_le _
    have : b.clampedDelay u ≤ b.max_delay := ratMin_le_right _ _
    calc ((r : ℕ) : ℚ) = ((r : ℤ) : ℚ) := by push_cast; ring
      _ ≤ b.clampedDelay u := hfloor
      _ ≤ b.max_delay := this
  · exact ratMin_le_right _ _

/-- One `next_delay` call increments the attempt counter by exactly one,
computing its delay from the pre-increment counter: the pre-clamp delay it
clamps and jitters is `delayFormulaAt` evaluated at the old `attempt`. -/
theorem next_delay_attempt (b : Backoff) (u : ℚ) (r : ℕ) :
    (b.next_delay u r).2.attempt = b.attempt + 1 ∧
      (b.calculate_delay u).1 = b.delayFormulaAt b.attempt u := by
  refine ⟨rfl, ?_⟩
  cases h : b.strat <;> simp [calculate_delay, delayFormulaAt, h]

/-- `next_delay` leaves the configuration fields untouched. -/
theorem next_delay_config (b : Backoff) (u : ℚ) (r : ℕ) :
    (b.next_delay u r).2.min_delay = b.min_delay ∧
      (b.next_delay u r).2.max_delay = b.max_delay ∧
      (b.next_delay u r).2.jitter = b.jitter :=
  ⟨rfl, rfl, rfl⟩

/-- Along any admissible run, every returned delay is at most `max_delay`. -/
theorem run_delays_le_max :
    ∀ (inputs : List (ℚ × ℕ)) (b : Backoff), b.validRun inputs = true →
      ∀ d ∈ (b.run inputs).1, d ≤ b.max_delay := by
  intro inputs
  induction inputs with
  | nil => intro b _ d hd; simp [run] at hd
  | cons hd tl ih =>
      intro b hv d hmem
      obtain ⟨u, r⟩ := hd
      simp only [validRun, Bool.and_eq_true] at hv
      simp only [run, List.mem_cons] at hmem
      rcases hmem with h | h
      · subst h; exact next_delay_le_max b u r hv.1
      · have := ih (b.next_delay u r).2 hv.2 d h
        rwa [(next_delay_config b u r).2.1] at this

/-- A run of `n` calls advances the attempt counter by exactly `n`. -/
theorem run_attempt :
    ∀ (inputs : List (ℚ × ℕ)) (b : Backoff),
      (b.run inputs).2.attempt = b.attempt + inputs.length := by
  intro inputs
  induction inputs with
  | nil => intro b; rfl
  | cons hd tl ih =>
      intro b
      obtain ⟨u, r⟩ := hd
      simp only [run, List.length_cons]
      rw [ih (b.next_delay u r).2, (next_delay_attempt b u r).1]
      omega

/-- The set of values one `next_delay` call can return, over all admissible
draws of the two random oracles. -/
def possibleNext (b : Backoff) (d : ℚ) : Prop :=
  ∃ u r, b.validInput u r = true ∧ (b.next_delay u r).1 = d

end Backoff

/-- C3: for every backoff strategy and every (admissible) sequence of
`next_delay()` calls, assuming `min_delay ≤ max_delay`, each returned delay
is at most `max_delay`, the attempt counter advances by one per call, and
the delay of a call is computed from the pre-increment attempt counter (so
the first call on a fresh instance uses `attempt = 0`). -/
theorem backoff_next_delay_clamped_and_late_increment
    (b : NodiLibs.Backoff) (inputs : List (ℚ × ℕ))
    (hmm : b.min_delay ≤ b.max_delay)
    (hv : b.validRun inputs = true) :
    (∀ d ∈ (b.run inputs).1, d ≤ b.max_delay) ∧
      (b.run inputs).2.attempt = b.attempt + inputs.length ∧
      ∀ u r, (b.next_delay u r).2.attempt = b.attempt + 1 ∧
        (b.calculate_delay u).1 = b.delayFormulaAt b.attempt u :=
  ⟨NodiLibs.Backoff.run_delays_le_max inputs b hv,
   NodiLibs.Backoff.run_attempt inputs b,
   fun u r => NodiLibs.Backoff.next_delay_attempt b u r⟩

/-- Witness for C3 at a concrete constant backoff and a concrete run. -/
theorem backoff_next_delay_clamped_and_late_increment_witness :
    ((NodiLibs.ConstantBackoff.make 1 30 false).min_delay ≤
        (NodiLibs.ConstantBackoff.make 1 30 false).max_delay) ∧
      ((NodiLibs.ConstantBackoff.make 1 30 false).validRun
        [(1, 0), (1, 0), (1, 0)] = true) ∧
      ((∀ d ∈ ((NodiLibs.ConstantBackoff.make 1 30 false).run
            [(1, 0), (1, 0), (1, 0)]).1,
          d ≤ (NodiLibs.ConstantBackoff.make 1 30 false).max_delay) ∧
        ((NodiLibs.ConstantBackoff.make 1 30 false).run
            [(1, 0), (1, 0), (1, 0)]).2.attempt =
          (NodiLibs.ConstantBackoff.make 1 30 false).attempt + 3 ∧
        ∀ u r,
          ((NodiLibs.ConstantBackoff.make 1 30 false).next_delay u r).2.attempt =
              (NodiLibs.ConstantBackoff.make 1 30 false).attempt + 1 ∧
            ((NodiLibs.ConstantBackoff.make 1 30 false).calculate_delay u).1 =
              (NodiLibs.ConstantBackoff.make 1 30 false).delayFormulaAt
                (NodiLibs.ConstantBackoff.make 1 30 false).attempt u) :=
  ⟨by decide, by decide,
   backoff_next_delay_clamped_and_late_increment _ _ (by decide) (by decide)⟩

/-- C4: `reset()` restores the initial generator state exactly — the state
after `reset()` equals a freshly constructed instance with the same
constructor parameters (attempt counter `0`, Fibonacci pair reseeded to
`(0, 1)`), so the first post-reset call computes the same pre-jitter
(clamped) delay as the first call on the fresh instance. -/
theorem backoff_reset_eq_fresh (b : NodiLibs.Backoff) :
    b.reset = b.freshLike ∧ b.reset.attempt = 0 ∧
      ∀ u, b.reset.clampedDelay u = b.freshLike.clampedDelay u := by
  obtain ⟨mn, mx, j, a, s⟩ := b
  cases s <;> exact ⟨rfl, rfl, fun u => rfl⟩

/-- C5 counterexample: with jitter enabled and a positive computed delay of
`5/2`, the value `1/2` lies in `[0, 5/2]` but can never be returned —
`next_delay` draws `random.randint(0, int(delay))`, an integer, so the
claimed uniform draw over the whole interval `[0, computed_delay]` is wrong. -/
theorem backoff_jitter_not_uniform_on_interval :
    (NodiLibs.ConstantBackoff.make 2 30 true).jitter = true ∧
      (0 : ℚ) < (NodiLibs.ConstantBackoff.make 2 30 true).clampedDelay 3 ∧
      (0 : ℚ) ≤ 1/2 ∧
      (1/2 : ℚ) ≤ (NodiLibs.ConstantBackoff.make 2 30 true).clampedDelay 3 ∧
      ¬ (NodiLibs.ConstantBackoff.make 2 30 true).possibleNext (1/2) := by
  have hc : (NodiLibs.ConstantBackoff.make 2 30 true).clampedDelay 3 = 2 := by decide
  refine ⟨rfl, by rw [hc]; norm_num, by norm_num, by rw [hc]; norm_num, ?_⟩
  rintro ⟨u, r, hv, he⟩
  simp only [NodiLibs.Backoff.next_delay, NodiLibs.Backoff.calculate_delay,
    NodiLibs.ConstantBackoff.make] at he
  norm_num [NodiLibs.ratMin] at he
  have h2 : ((2 * r : ℕ) : ℚ) = 1 := by push_cast; linarith
  have h3 : (2 * r : ℕ) = 1 := by exact_mod_cast h2
  omega

/-- C5 amended: when jitter is enabled and the clamped delay is positive,
`next_delay()` returns exactly the integers `0, 1, …, int(computed_delay)`
(Python `random.randint(0, int(delay))`): every natural number up to the
floor of the clamped delay is a possible result, and nothing else is. -/
theorem backoff_jitter_integer_range (b : NodiLibs.Backoff) (u : ℚ)
    (hj : b.jitter = true) (hpos : 0 < b.clampedDelay u)
    (hu : b.min_delay ≤ u ∧ u ≤ b.max_delay) :
    (∀ r, b.validInput u r = true →
        ∃ n : ℕ, n ≤ (⌊b.clampedDelay u⌋).toNat ∧ (b.next_delay u r).1 = (n : ℚ)) ∧
      (∀ n : ℕ, n ≤ (⌊b.clampedDelay u⌋).toNat →
        b.validInput u n = true ∧ (b.next_delay u n).1 = (n : ℚ)) := by
  have hbranch : ∀ r : ℕ, (b.next_delay u r).1 = (r : ℚ) := by
    intro r
    simp only [NodiLibs.Backoff.next_delay, hj]
    have hd : decide (0 < NodiLibs.ratMin (b.calculate_delay u).1 b.max_delay) = true := by
      simpa [NodiLibs.Backoff.clampedDelay] using hpos
    simp [hd]
  constructor
  · intro r hv
    refine ⟨r, ?_, hbranch r⟩
    simp only [NodiLibs.Backoff.validInput, Bool.and_eq_true, decide_eq_true_eq] at hv
    exact hv.2
  · intro n hn
    refine ⟨?_, hbranch n⟩
    simp only [NodiLibs.Backoff.validInput, Bool.and_eq_true, decide_eq_true_eq]
    exact ⟨⟨hu.1, hu.2⟩, hn⟩

/-- Witness for the amended C5 at a concrete constant backoff. -/
theorem backoff_jitter_integer_range_witness :
    (NodiLibs.ConstantBackoff.make 2 30 true).jitter = true ∧
      (0 : ℚ) < (NodiLibs.ConstantBackoff.make 2 30 true).clampedDelay 3 ∧
      ((NodiLibs.ConstantBackoff.make 2 30 true).min_delay ≤ 3 ∧
        (3 : ℚ) ≤ (NodiLibs.ConstantBackoff.make 2 30 true).max_delay) ∧
      ((∀ r, (NodiLibs.ConstantBackoff.make 2 30 true).validInput 3 r = true →
          ∃ n : ℕ,
            n ≤ (⌊(NodiLibs.ConstantBackoff.make 2 30 true).clampedDelay 3⌋).toNat ∧
            ((NodiLibs.ConstantBackoff.make 2 30 true).next_delay 3 r).1 = (n : ℚ)) ∧
        (∀ n : ℕ,
          n ≤ (⌊(NodiLibs.ConstantBackoff.make 2 30 true).clampedDelay 3⌋).toNat →
          (NodiLibs.ConstantBackoff.make 2 30 true).validInput 3 n = true ∧
            ((NodiLibs.ConstantBackoff.make 2 30 true).next_delay 3 n).1 = (n : ℚ))) :=
  ⟨rfl, by decide, by decide,
   backoff_jitter_integer_range _ 3 rfl (by decide) (by decide)⟩

/-!
Part 2: the MQTT client (`legacy/mqtt_client.py`), class `MqttClient`.

The paho transport driver is an external collaborator; it is modelled as an
oracle (`Driver`) describing the outcome of each driver call, and every
driver call an operation makes is logged in an explicit trace of
`TransportCall`s.  The driver thread's `_on_connect` / `_on_disconnect`
callbacks are folded into the per-attempt behavior: `AttemptBehavior.connected`
is the `_is_connected` value those callbacks leave behind when the connect
event fires.  Wall-clock timestamps (`time.time()` inside `_add_history`)
and real sleeping (`time.sleep`, event waits) have no observable effect on
the modelled state and are omitted.  The retry loop of `_connect_internal`
is a `while True:`; it is embedded with explicit fuel, `none` standing for
"still looping after `fuel` iterations".
-/

/-- `MqttTransportType` enum. -/
inductive MqttTransportType where
  | TCP
  | WEBSOCKETS
deriving DecidableEq

/-- `MqttResult` dataclass: `error` holds the stringified exception. -/
structure MqttResult where
  ok : Bool
  rc : ℤ
  mid : Option ℕ
  error : Option String
  message : Option String
deriving DecidableEq

/-- `paho.mqtt.client.MQTT_ERR_SUCCESS`. -/
def MQTT_ERR_SUCCESS : ℤ := 0

/-- `ssl.TLSVersion` values used by `setup_tls`. -/
inductive SslTlsVersion where
  | TLSv1_2
  | TLSv1_3
  | other
deriving DecidableEq

/-- `ssl.VerifyMode` values used by `setup_tls`. -/
inductive SslVerifyMode where
  | CERT_REQUIRED
  | CERT_OPTIONAL
  | CERT_NONE
deriving DecidableEq

/-- `AuthConfig` frozen dataclass. -/
structure AuthConfig where
  username : String
  password : Option String
deriving DecidableEq

/-- `TlsConfig` frozen dataclass. -/
structure TlsConfig where
  ca_certs : Option String
  cert_file : Option String
  key_file : Option String
  key_password : Option String
  tls_version : SslTlsVersion
  cert_reqs : SslVerifyMode
  ciphers : Option String
  alpn_protocols : Option (List String)
  tls_insecure : Bool
deriving DecidableEq

/-- Python truthiness of an `Optional[str]`: `None` and `""` are falsy. -/
def strTruthy : Option String → Bool
  | none => false
  | some s => !s.isEmpty

/-- Python truthiness of an `Optional[List[str]]`: `None` and `[]` are falsy. -/
def listTruthy : Option (List String) → Bool
  | none => false
  | some l => !l.isEmpty

/-- A history attribute value (`str`, `int` or `bool` in the source dicts). -/
inductive HVal where
  | s (v : String)
  | n (v : ℤ)
  | b (v : Bool)
deriving DecidableEq

/-- One history entry: its attribute dict (the `time.time()` timestamp that
`_add_history` also stores is wall-clock input with no further effect and is
omitted). -/
def HistEntry := List (String × HVal)
deriving DecidableEq

/-- The six fixed history categories (keys of `self._history`). -/
inductive HistCat where
  | publish
  | subscribe
  | unsubscribe
  | connect
  | disconnect
  | errors
deriving DecidableEq

/-- `collections.deque(maxlen)` semantics: keep only the most recent
`maxlen` elements (oldest at the head). -/
def dequeKeepLast (maxlen : ℕ) (xs : List HistEntry) : List HistEntry :=
  xs.drop (xs.length - maxlen)

/-- Appending to a `deque(maxlen=maxlen)`: evicts the oldest on overflow. -/
def dequeAppend (maxlen : ℕ) (xs : List HistEntry) (x : HistEntry) : List HistEntry :=
  dequeKeepLast maxlen (xs ++ [x])

/-- The per-category ring buffers of `self._history`. -/
structure History where
  publish : List HistEntry
  subscribe : List HistEntry
  unsubscribe : List HistEntry
  connect : List HistEntry
  disconnect : List HistEntry
  errors : List HistEntry
deriving DecidableEq

/-- `self._history[category].append(data)` on a `deque(maxlen=maxlen)`. -/
def History.update (h : History) (cat : HistCat) (maxlen : ℕ) (x : HistEntry) : History :=
  match cat with
  | .publish => { h with publish := dequeAppend maxlen h.publish x }
  | .subscribe => { h with subscribe := dequeAppend maxlen h.subscribe x }
  | .unsubscribe => { h with unsubscribe := dequeAppend maxlen h.unsubscribe x }
  | .connect => { h with connect := dequeAppend maxlen h.connect x }
  | .disconnect => { h with disconnect := dequeAppend maxlen h.disconnect x }
  | .errors => { h with errors := dequeAppend maxlen h.errors x }

/-- `deque(old_entries, maxlen=max_size)` for every category, as done by
`enable_history` when resizing. -/
def History.truncateAll (h : History) (maxlen : ℕ) : History :=
  ⟨dequeKeepLast maxlen h.publish, dequeKeepLast maxlen h.subscribe,
   dequeKeepLast maxlen h.unsubscribe, dequeKeepLast maxlen h.connect,
   dequeKeepLast maxlen h.disconnect, dequeKeepLast maxlen h.errors⟩

/-- An inbound MQTT message (the payload of a `CallbackTask`). -/
structure Message where
  topic : String
  payload : String
deriving DecidableEq

/-- The state of an `MqttClient` object that the modelled operations touch.
Threads are modelled by their observable footprint: `callback_workers` is
`len(self._callback_workers)` and `supervisor_thread_alive` is
`self._supervisor_thread is not None and self._supervisor_thread.is_alive()`;
`on_message_callback` records whether a message callback is registered. -/
structure ClientState where
  client_id : String
  host : String
  port : ℕ
  keepalive : ℕ
  transport : MqttTransportType
  clean_start : Bool
  record_history : Bool
  history_max_size : ℕ
  auth_config : Option AuthConfig
  tls_config : Option TlsConfig
  is_connected : Bool
  running : Bool
  supervisor_enabled : Bool
  supervisor_thread_alive : Bool
  callback_queue_max_size : ℕ
  callback_queue : List Message
  callback_workers : ℕ
  callback_worker_count : ℕ
  callback_worker_running : Bool
  on_message_callback : Bool
  history : History
deriving DecidableEq

/-- `MqttClient.__init__` (fields the model tracks; `callback_worker_count`
is taken explicitly — its host-derived default `max(1, cpu_count // 2)` is
environment input). -/
def MqttClient.init (client_id host : String) (port keepalive : ℕ)
    (transport : MqttTransportType) (clean_start : Bool)
    (callback_queue_max_size callback_worker_count : ℕ) : ClientState :=
  { client_id := client_id, host := host, port := port, keepalive := keepalive,
    transport := transport, clean_start := clean_start,
    record_history := false, history_max_size := 100,
    auth_config := none, tls_config := none,
    is_connected := false, running := false,
    supervisor_enabled := false, supervisor_thread_alive := false,
    callback_queue_max_size := callback_queue_max_size, callback_queue := [],
    callback_workers := 0, callback_worker_count := callback_worker_count,
    callback_worker_running := false, on_message_callback := false,
    history := ⟨[], [], [], [], [], []⟩ }

/-- Every call into the paho driver. -/
inductive TransportCall where
  | connect
  | loopStart
  | loopForever
  | loopStop
  | disconnect
  | pub (topic : String)
  | tlsSet
  | tlsInsecureSet
deriving DecidableEq

/-- The observable outcome of one `_mqtt_client.connect(...)` attempt:
whether the call raised, whether `_connect_event.wait(timeout)` returned
before the timeout, and the `_is_connected` value the driver-thread
callbacks left behind. -/
structure AttemptBehavior where
  raises : Option String
  eventFired : Bool
  connected : Bool

/-- Outcome of a `_mqtt_client.publish(...)` call. -/
inductive PublishOutcome where
  | raises (msg : String)
  | returns (rc : ℤ) (mid : ℕ)

/-- Oracle for the external transport driver. -/
structure Driver where
  connectAttempts : ℕ → AttemptBehavior
  disconnectRaises : Option String
  publishOutcome : PublishOutcome

/-- Python `str(...)` of an `Optional[str]` interpolated into an f-string. -/
def optStr : Option String → String
  | none => "None"
  | some s => s

namespace ClientState

/-- `MqttClient._add_history`: a no-op unless history recording is enabled. -/
def addHistory (st : ClientState) (cat : HistCat) (data : HistEntry) : ClientState :=
  if st.record_history then
    { st with history := st.history.update cat st.history_max_size data }
  else st

/-- `MqttClient.enable_history`. -/
def enable_history (st : ClientState) (max_size : ℕ) : ClientState :=
  let st := { st with record_history := true }
  if st.history_max_size ≠ max_size then
    { st with history_max_size := max_size, history := st.history.truncateAll max_size }
  else st

/-- `MqttClient.disable_history`. -/
def disable_history (st : ClientState) : ClientState :=
  { st with record_history := false }

/-- `MqttClient.setup_tls`: returns the new state, the driver calls made and
the raised `ValueError` message, if any (a raise happens before anything is
stored or called, so the state comes back unchanged). -/
def setup_tls (st : ClientState)
    (ca_certs cert_file key_file key_password : Option String)
    (tls_version : SslTlsVersion) (cert_reqs : SslVerifyMode)
    (ciphers : Option String) (alpn_protocols : Option (List String))
    (tls_insecure : Bool) : ClientState × List TransportCall × Option String :=
  if strTruthy cert_file && !strTruthy key_file then
    (st, [], some "key_file is required when cert_file is provided")
  else if strTruthy key_file && !strTruthy cert_file then
    (st, [], some "cert_file is required when key_file is provided")
  else
    let alpn_tuple := if listTruthy alpn_protocols then alpn_protocols else none
    let st := { st with tls_config := some ⟨ca_certs, cert_file, key_file,
      key_password, tls_version, cert_reqs, ciphers, alpn_tuple, tls_insecure⟩ }
    let calls := [TransportCall.tlsSet] ++
      (if tls_insecure then [TransportCall.tlsInsecureSet] else [])
    let st := if st.port = 1883 then { st with port := 8883 } else st
    (st, calls, none)

/-- `MqttClient._on_message`: offload the task to the callback queue with
`put_nowait`; on `queue.Full` (a `Queue(maxsize)` with positive `maxsize` at
capacity) drop it and record a history error. -/
def on_message_event (st : ClientState) (message : Message) : ClientState :=
  if st.on_message_callback then
    if 0 < st.callback_queue_max_size &&
        st.callback_queue_max_size ≤ st.callback_queue.length then
      st.addHistory .errors [("operation", .s "message_queue"),
        ("error", .s "queue_full"), ("topic", .s message.topic)]
    else { st with callback_queue := st.callback_queue ++ [message] }
  else st

/-- `MqttClient._start_callback_workers`. -/
def start_callback_workers (st : ClientState) : ClientState :=
  if st.callback_worker_running then st
  else { st with
          callback_worker_running := true,
          callback_workers := st.callback_workers + st.callback_worker_count }

/-- `MqttClient._start_supervisor_thread` (spawns only when no live
supervisor thread exists). -/
def start_supervisor_thread (st : ClientState) : ClientState :=
  if st.supervisor_thread_alive then st
  else { st with supervisor_thread_alive := true }

end ClientState

/-- Result of the `_connect_internal` retry loop: `result = none` means the
fuel ran out with the loop still going; `attempts` is the final value of the
local `attempt` counter; `calls` the driver calls made. -/
structure LoopOut where
  result : Option MqttResult
  attempts : ℕ
  state : ClientState
  calls : List TransportCall

namespace ClientState

/-- `MqttClient._connect_internal`: the `while True:` body, with `attempt`
and `last_error` as the loop-carried locals. -/
def connect_internal_loop (d : ℕ → AttemptBehavior) (blocking retry : Bool)
    (timeout retry_interval : ℚ) (max_retries : ℕ) :
    ℕ → ℕ → Option String → ClientState → LoopOut
  | 0, attempt, _, st => ⟨none, attempt, st, []⟩
  | fuel + 1, attempt, _, st =>
    let attempt := attempt + 1
    let a := d attempt
    match a.raises with
    | some m =>
      let last_error := some ("Connection error: " ++ m)
      let st := st.addHistory .errors [("operation", .s "connect"), ("error", .s m)]
      if !retry then
        ⟨some ⟨false, 0, none, some m, last_error⟩, attempt, st, [.connect]⟩
      else if !st.running then
        ⟨some ⟨false, 0, none, none, some "Stopped during connection retry"⟩,
          attempt, st, [.connect]⟩
      else if 0 < max_retries && max_retries ≤ attempt then
        ⟨some ⟨false, 0, none, none, some ("Max retries (" ++ toString max_retries
            ++ ") exceeded: " ++ optStr last_error)⟩, attempt, st, [.connect]⟩
      else
        let rest := connect_internal_loop d blocking retry timeout retry_interval
          max_retries fuel attempt last_error st
        ⟨rest.result, rest.attempts, rest.state, .connect :: rest.calls⟩
    | none =>
      if blocking then
        let st := { st with is_connected := a.connected }
        ⟨some ⟨a.connected, 0, none, none, some "Blocking loop ended"⟩,
          attempt, st, [.connect, .loopForever]⟩
      else
        if a.eventFired && a.connected then
          let st := { st with is_connected := a.connected }
          ⟨some ⟨true, 0, none, none, some "Connected"⟩,
            attempt, st, [.connect, .loopStart]⟩
        else
          let st := if a.eventFired then { st with is_connected := a.connected } else st
          let last_error := if a.eventFired then some "Connection rejected by broker"
            else some ("Connection timeout after " ++ toString timeout ++ "s")
          if !retry then
            ⟨some ⟨false, 0, none, none, last_error⟩, attempt, st, [.connect, .loopStart]⟩
          else if !st.running then
            ⟨some ⟨false, 0, none, none, some "Stopped during connection retry"⟩,
              attempt, st, [.connect, .loopStart]⟩
          else if 0 < max_retries && max_retries ≤ attempt then
            ⟨some ⟨false, 0, none, none, some ("Max retries (" ++ toString max_retries
                ++ ") exceeded: " ++ optStr last_error)⟩, attempt, st,
              [.connect, .loopStart]⟩
          else
            let rest := connect_internal_loop d blocking retry timeout retry_interval
              max_retries fuel attempt last_error st
            ⟨rest.result, rest.attempts, rest.state, .connect :: .loopStart :: rest.calls⟩

end ClientState

/-- Result of a public lifecycle / pub-sub operation: the `MqttResult`
(`none` when the fuel of an inner retry loop ran out), the new client state
and the driver calls made. -/
structure OpOut where
  result : Option MqttResult
  state : ClientState
  calls : List TransportCall
deriving DecidableEq

namespace ClientState

/-- `MqttClient.start`. -/
def start (d : Driver) (blocking : Bool) (timeout : ℚ) (retry : Bool)
    (retry_interval : ℚ) (max_retries fuel : ℕ) (st : ClientState) : OpOut :=
  if st.running then ⟨some ⟨true, 0, none, none, some "Already running"⟩, st, []⟩
  else
    let st := { st with running := true }
    let st := st.start_callback_workers
    let lo := st.connect_internal_loop d.connectAttempts blocking retry timeout
      retry_interval max_retries fuel 0 none
    match lo.result with
    | none => ⟨none, lo.state, lo.calls⟩
    | some res =>
      let st2 := if res.ok && lo.state.supervisor_enabled
        then lo.state.start_supervisor_thread else lo.state
      ⟨some res, st2, lo.calls⟩

/-- `MqttClient.connect` (public method): marks the client running if it was
not, then runs `_connect_internal`; never starts the callback workers. -/
def connect (d : Driver) (blocking : Bool) (timeout : ℚ) (retry : Bool)
    (retry_interval : ℚ) (max_retries fuel : ℕ) (st : ClientState) : OpOut :=
  if st.is_connected then ⟨some ⟨true, 0, none, none, some "Already connected"⟩, st, []⟩
  else
    let st := if !st.running then { st with running := true } else st
    let lo := st.connect_internal_loop d.connectAttempts blocking retry timeout
      retry_interval max_retries fuel 0 none
    ⟨lo.result, lo.state, lo.calls⟩

/-- `MqttClient._disconnect_internal`. -/
def disconnect_internal (d : Driver) (stop_loop : Bool) (st : ClientState) :
    MqttResult × ClientState × List TransportCall :=
  match d.disconnectRaises with
  | some m =>
    let st := st.addHistory .errors [("operation", .s "disconnect"), ("error", .s m)]
    (⟨false, 0, none, some m, some m⟩, st, [.disconnect])
  | none =>
    let calls := TransportCall.disconnect ::
      (if stop_loop then [TransportCall.loopStop] else [])
    let st := { st with is_connected := false }
    (⟨true, 0, none, none, some "Disconnected"⟩, st, calls)

/-- `MqttClient.reconnect`: full stop-the-loop-then-restart cycle; the
result of the internal disconnect is discarded, then `_connect_internal`
runs with its defaults (`blocking=False`, `retry=False`,
`retry_interval=5.0`, `max_retries=0`). -/
def reconnect (d : Driver) (timeout : ℚ) (fuel : ℕ) (st : ClientState) : OpOut :=
  let dc := st.disconnect_internal d true
  let lo := dc.2.1.connect_internal_loop d.connectAttempts false false timeout 5 0 fuel 0 none
  ⟨lo.result, lo.state, dc.2.2 ++ lo.calls⟩

/-- The `try:` block of `MqttClient.publish`: the actual transport publish
call and its result handling; `pre` is the trace accumulated so far. -/
def publish_transport (d : Driver) (topic : String) (qos : ℕ) (retain : Bool)
    (st : ClientState) (pre : List TransportCall) : OpOut :=
  match d.publishOutcome with
  | .raises m =>
    let st := st.addHistory .errors [("operation", .s "publish"),
      ("topic", .s topic), ("error", .s m)]
    ⟨some ⟨false, 0, none, some m, some m⟩, st, pre ++ [.pub topic]⟩
  | .returns rc mid =>
    if rc = MQTT_ERR_SUCCESS then
      let st := st.addHistory .publish [("topic", .s topic), ("qos", .n qos),
        ("retain", .b retain), ("mid", .n mid)]
      ⟨some ⟨true, rc, some mid, none, none⟩, st, pre ++ [.pub topic]⟩
    else
      ⟨some ⟨false, rc, none, none, some ("Publish failed: rc=" ++ toString rc)⟩,
        st, pre ++ [.pub topic]⟩

/-- `MqttClient.publish`: when disconnected, either fail fast
(`auto_reconnect=False`) without touching the transport, or run a full
`reconnect()` (default timeout `10.0`) and fail with a descriptive message
if that fails, before attempting the transport publish. -/
def publish (d : Driver) (topic payload : String) (qos : ℕ)
    (retain auto_reconnect : Bool) (fuel : ℕ) (st : ClientState) : OpOut :=
  if !st.is_connected then
    if auto_reconnect then
      let rr := st.reconnect d 10 fuel
      match rr.result with
      | none => ⟨none, rr.state, rr.calls⟩
      | some r =>
        if !r.ok then
          ⟨some ⟨false, 0, none, none,
            some ("Auto-reconnect failed: " ++ optStr r.message)⟩, rr.state, rr.calls⟩
        else rr.state.publish_transport d topic qos retain rr.calls
    else ⟨some ⟨false, 0, none, none, some "Not connected"⟩, st, []⟩
  else st.publish_transport d topic qos retain []

/-- `MqttClient.has_tls` property. -/
def has_tls (st : ClientState) : Bool := st.tls_config.isSome

end ClientState

/-- The fields of the client state that `_connect_internal` never writes
(it only appends history and sets `_is_connected`). -/
def framePreserved (s t : ClientState) : Prop :=
  t.running = s.running ∧
    t.callback_worker_running = s.callback_worker_running ∧
    t.callback_workers = s.callback_workers ∧
    t.supervisor_enabled = s.supervisor_enabled ∧
    t.supervisor_thread_alive = s.supervisor_thread_alive ∧
    t.callback_queue = s.callback_queue

theorem framePreserved_refl (s : ClientState) : framePreserved s s :=
  ⟨rfl, rfl, rfl, rfl, rfl, rfl⟩

theorem framePreserved_trans {s t u : ClientState}
    (h1 : framePreserved s t) (h2 : framePreserved t u) : framePreserved s u :=
  ⟨h2.1.trans h1.1, h2.2.1.trans h1.2.1, h2.2.2.1.trans h1.2.2.1,
   h2.2.2.2.1.trans h1.2.2.2.1, h2.2.2.2.2.1.trans h1.2.2.2.2.1,
   h2.2.2.2.2.2.trans h1.2.2.2.2.2⟩

theorem framePreserved_addHistory (s : ClientState) (cat : HistCat) (x : HistEntry) :
    framePreserved s (s.addHistory cat x) := by
  simp only [ClientState.addHistory]
  split
  · exact ⟨rfl, rfl, rfl, rfl, rfl, rfl⟩
  · exact framePreserved_refl s

theorem framePreserved_set_connected (s : ClientState) (c : Bool) :
    framePreserved s { s with is_connected := c } :=
  ⟨rfl, rfl, rfl, rfl, rfl, rfl⟩

/-- `_connect_internal` only writes history entries and `_is_connected`:
every other modelled field survives the loop unchanged. -/
theorem connect_internal_loop_frame (d : ℕ → AttemptBehavior) (blocking retry : Bool)
    (timeout retry_interval : ℚ) (max_retries : ℕ) :
    ∀ (fuel attempt : ℕ) (le : Option String) (st : ClientState),
      framePreserved st (st.connect_internal_loop d blocking retry timeout
        retry_interval max_retries fuel attempt le).state := by
  intro fuel
  induction fuel with
  | zero => intro attempt le st; exact framePreserved_refl st
  | succ n ih =>
    intro attempt le st
    rw [ClientState.connect_internal_loop]
    rcases hra : (d (attempt + 1)).raises with _ | m <;>
      simp only [hra] <;>
      split <;> (repeat' split) <;>
      first
        | exact framePreserved_refl st
        | exact framePreserved_set_connected st _
        | exact framePreserved_addHistory st _ _
        | exact framePreserved_trans (framePreserved_addHistory st _ _) (ih _ _ _)
        | exact framePreserved_trans (framePreserved_set_connected st _) (ih _ _ _)
        | exact framePreserved_trans (framePreserved_refl st) (ih _ _ _)

/-- A connect attempt that succeeds: no exception, the connect event fired
within the timeout, and the driver-thread callback reported a live
connection. -/
def attemptOk (a : AttemptBehavior) : Bool :=
  a.raises.isNone && a.eventFired && a.connected

/-- Against a driver whose every connect attempt fails, the retry loop with
`retry=True` and a positive `max_retries = m` makes exactly `m - attempt`
further connect calls and returns the max-retries failure. -/
theorem connect_internal_loop_always_fail (d : ℕ → AttemptBehavior)
    (timeout retry_interval : ℚ) (m : ℕ)
    (hfail : ∀ n, attemptOk (d n) = false) :
    ∀ (fuel attempt : ℕ) (le : Option String) (st : ClientState),
      st.running = true → attempt < m → m ≤ fuel + attempt →
      ∃ e,
        (st.connect_internal_loop d false true timeout retry_interval m
            fuel attempt le).result =
          some ⟨false, 0, none, none,
            some ("Max retries (" ++ toString m ++ ") exceeded: " ++ e)⟩ ∧
        (st.connect_internal_loop d false true timeout retry_interval m
            fuel attempt le).attempts = m ∧
        (st.connect_internal_loop d false true timeout retry_interval m
            fuel attempt le).calls.count .connect = m - attempt := by
  intro fuel
  induction fuel with
  | zero => intro attempt le st _ hlt hle; omega
  | succ n ih =>
    intro attempt le st hrun hlt hle
    have hok := hfail (attempt + 1)
    have hm0 : 0 < m := by omega
    rw [ClientState.connect_internal_loop]
    rcases hra : (d (attempt + 1)).raises with _ | msg
    · have hec : ((d (attempt + 1)).eventFired && (d (attempt + 1)).connected) = false := by
        simpa [attemptOk, hra] using hok
      simp only [hra, hec, Bool.false_eq_true, if_false, Bool.not_true, Bool.not_false]
      cases hef : (d (attempt + 1)).eventFired with
      | true =>
        simp only [hef, if_true, hrun, Bool.not_true, Bool.false_eq_true, if_false]
        by_cases hml : m ≤ attempt + 1
        · have hcond : (decide (0 < m) && decide (m ≤ attempt + 1)) = true := by
            simp [hm0, hml]
          simp only [hcond, if_true]
          refine ⟨"Connection rejected by broker", rfl, by omega, ?_⟩
          have : ([TransportCall.connect, TransportCall.loopStart].count
              TransportCall.connect) = 1 := by decide
          omega
        · have hcond : (decide (0 < m) && decide (m ≤ attempt + 1)) = false := by
            simp [hml]
          simp only [hcond, Bool.false_eq_true, if_false]
          obtain ⟨e, h1, h2, h3⟩ := ih (attempt + 1) (some "Connection rejected by broker")
            { st with is_connected := (d (attempt + 1)).connected, running := true }
            rfl (by omega) (by omega)
          refine ⟨e, h1, h2, ?_⟩
          simp only [List.count_cons]
          rw [h3]
          have : (TransportCall.loopStart == TransportCall.connect) = false := by decide
          simp [this]
          omega
      | false =>
        simp only [hef, Bool.false_eq_true, if_false, hrun, Bool.not_true]
        by_cases hml : m ≤ attempt + 1
        · have hcond : (decide (0 < m) && decide (m ≤ attempt + 1)) = true := by
            simp [hm0, hml]
          simp only [hcond, if_true]
          refine ⟨"Connection timeout after " ++ toString timeout ++ "s", rfl, by omega, ?_⟩
          have : ([TransportCall.connect, TransportCall.loopStart].count
              TransportCall.connect) = 1 := by decide
          omega
        · have hcond : (decide (0 < m) && decide (m ≤ attempt + 1)) = false := by
            simp [hml]
          simp only [hcond, Bool.false_eq_true, if_false]
          obtain ⟨e, h1, h2, h3⟩ := ih (attempt + 1)
            (some ("Connection timeout after " ++ toString timeout ++ "s")) st
            hrun (by omega) (by omega)
          refine ⟨e, h1, h2, ?_⟩
          simp only [List.count_cons]
          rw [h3]
          have : (TransportCall.loopStart == TransportCall.connect) = false := by decide
          simp [this]
          omega
    · simp only [hra, Bool.not_true, Bool.false_eq_true, if_false]
      have hrun1 : (st.addHistory .errors
          [("operation", .s "connect"), ("error", .s msg)]).running = true :=
        (framePreserved_addHistory st _ _).1.trans hrun
      simp only [hrun1, Bool.not_true, Bool.false_eq_true, if_false]
      by_cases hml : m ≤ attempt + 1
      · have hcond : (decide (0 < m) && decide (m ≤ attempt + 1)) = true := by
          simp [hm0, hml]
        simp only [hcond, if_true]
        refine ⟨"Connection error: " ++ msg, rfl, by omega, ?_⟩
        have : ([TransportCall.connect].count TransportCall.connect) = 1 := by decide
        omega
      · have hcond : (decide (0 < m) && decide (m ≤ attempt + 1)) = false := by
          simp [hml]
        simp only [hcond, Bool.false_eq_true, if_false]
        obtain ⟨e, h1, h2, h3⟩ := ih (attempt + 1) (some ("Connection error: " ++ msg))
          (st.addHistory .errors [("operation", .s "connect"), ("error", .s msg)])
          hrun1 (by omega) (by omega)
        refine ⟨e, h1, h2, ?_⟩
        simp [List.count_cons, h3]
        omega

theorem start_callback_workers_fields (st : ClientState) :
    (st.start_callback_workers).running = st.running ∧
      (st.start_callback_workers).supervisor_enabled = st.supervisor_enabled ∧
      (st.start_callback_workers).supervisor_thread_alive = st.supervisor_thread_alive := by
  simp only [ClientState.start_callback_workers]
  split
  · exact ⟨rfl, rfl, rfl⟩
  · exact ⟨rfl, rfl, rfl⟩

theorem start_supervisor_thread_alive (s : ClientState) :
    (s.start_supervisor_thread).supervisor_thread_alive = true := by
  simp only [ClientState.start_supervisor_thread]
  split
  · next h => exact h
  · rfl

/-- C1: `start(retry=True, max_retries=3)` (any `retry_interval`) against a
driver whose every connect attempt fails returns `ok=False` after exactly 3
connect calls, with a message reporting that the maximum number of retries
was exceeded. -/
theorem start_retry_exhausts_max_retries (st : ClientState) (d : Driver)
    (timeout retry_interval : ℚ) (fuel : ℕ)
    (hrun : st.running = false)
    (hfail : ∀ n, attemptOk (d.connectAttempts n) = false)
    (hfuel : 3 ≤ fuel) :
    ∃ e,
      (st.start d false timeout true retry_interval 3 fuel).result =
        some ⟨false, 0, none, none,
          some ("Max retries (" ++ toString 3 ++ ") exceeded: " ++ e)⟩ ∧
      (st.start d false timeout true retry_interval 3 fuel).calls.count .connect = 3 := by
  obtain ⟨e, h1, h2, h3⟩ := connect_internal_loop_always_fail d.connectAttempts
    timeout retry_interval 3 hfail fuel 0 none
    (({ st with running := true }).start_callback_workers)
    ((start_callback_workers_fields _).1) (by omega) (by omega)
  refine ⟨e, ?_, ?_⟩
  · simp only [ClientState.start, hrun, Bool.false_eq_true, if_false, h1]
  · simp only [ClientState.start, hrun, Bool.false_eq_true, if_false, h1, h3]

/-- Witness for C1 at a fresh client and a driver whose connect always
raises. -/
theorem start_retry_exhausts_max_retries_witness :
    (MqttClient.init "cid" "host" 1883 60 .TCP true 10 1).running = false ∧
      (∀ n, attemptOk ((⟨fun _ => ⟨some "refused", false, false⟩, none,
        .returns 0 1⟩ : Driver).connectAttempts n) = false) ∧
      3 ≤ 3 ∧
      ∃ e,
        ((MqttClient.init "cid" "host" 1883 60 .TCP true 10 1).start
            ⟨fun _ => ⟨some "refused", false, false⟩, none, .returns 0 1⟩
            false 10 true 0 3 3).result =
          some ⟨false, 0, none, none,
            some ("Max retries (" ++ toString 3 ++ ") exceeded: " ++ e)⟩ ∧
        ((MqttClient.init "cid" "host" 1883 60 .TCP true 10 1).start
            ⟨fun _ => ⟨some "refused", false, false⟩, none, .returns 0 1⟩
            false 10 true 0 3 3).calls.count .connect = 3 :=
  ⟨rfl, fun _ => rfl, by omega,
   start_retry_exhausts_max_retries _ _ 10 0 3 rfl (fun _ => rfl) (by omega)⟩

/-- C2 counterexample: with the supervisor enabled and an initial connect
that fails, `start()` returns with the connect result known (`ok=False`) and
the supervisor thread is NOT armed — `start` guards
`_start_supervisor_thread()` behind `result.ok`, so the thread is not
started "regardless" of the initial connect outcome. -/
theorem start_failed_connect_supervisor_not_armed :
    (({ MqttClient.init "cid" "host" 1883 60 .TCP true 10 1 with
          supervisor_enabled := true }).start
        ⟨fun _ => ⟨some "refused", false, false⟩, none, .returns 0 1⟩
        false 10 false 5 0 1).result.map MqttResult.ok = some false ∧
      (({ MqttClient.init "cid" "host" 1883 60 .TCP true 10 1 with
            supervisor_enabled := true }).start
          ⟨fun _ => ⟨some "refused", false, false⟩, none, .returns 0 1⟩
          false 10 false 5 0 1).state.supervisor_enabled = true ∧
      (({ MqttClient.init "cid" "host" 1883 60 .TCP true 10 1 with
            supervisor_enabled := true }).start
          ⟨fun _ => ⟨some "refused", false, false⟩, none, .returns 0 1⟩
          false 10 false 5 0 1).state.supervisor_thread_alive = false :=
  ⟨rfl, rfl, rfl⟩

/-- C2 amended: when `start()` runs its initial connect (client not already
running) and that connect sequence returns a result, the supervisor thread
is armed exactly when the initial connect succeeded and the supervisor is
enabled (or it was already alive); on a failed initial connect it is not
armed. -/
theorem start_arms_supervisor_iff_connect_ok (st : ClientState) (d : Driver)
    (blocking retry : Bool) (timeout retry_interval : ℚ) (max_retries fuel : ℕ)
    (hrun : st.running = false) :
    ∀ r, (st.start d blocking timeout retry retry_interval max_retries fuel).result = some r →
      (st.start d blocking timeout retry retry_interval max_retries fuel).state.supervisor_thread_alive
        = (st.supervisor_thread_alive || (r.ok && st.supervisor_enabled)) := by
  intro r hr
  have hfields := start_callback_workers_fields { st with running := true }
  have hframe := connect_internal_loop_frame d.connectAttempts blocking retry
    timeout retry_interval max_retries fuel 0 none
    (({ st with running := true }).start_callback_workers)
  simp only [ClientState.start, hrun, Bool.false_eq_true, if_false] at hr ⊢
  rcases hlo : (({ st with running := true }).start_callback_workers.connect_internal_loop
      d.connectAttempts blocking retry timeout retry_interval max_retries fuel 0 none).result
    with _ | res
  · rw [hlo] at hr
    simp at hr
  · rw [hlo] at hr ⊢
    dsimp only at hr ⊢
    simp only [Option.some.injEq] at hr
    subst hr
    have he : (({ st with running := true }).start_callback_workers.connect_internal_loop
        d.connectAttempts blocking retry timeout retry_interval max_retries
        fuel 0 none).state.supervisor_enabled = st.supervisor_enabled :=
      hframe.2.2.2.1.trans hfields.2.1
    have ha : (({ st with running := true }).start_callback_workers.connect_internal_loop
        d.connectAttempts blocking retry timeout retry_interval max_retries
        fuel 0 none).state.supervisor_thread_alive = st.supervisor_thread_alive :=
      hframe.2.2.2.2.1.trans hfields.2.2
    cases hok : (res.ok && st.supervisor_enabled) with
    | true =>
      rw [he, hok]
      simp only [if_true]
      rw [start_supervisor_thread_alive]
      simp
    | false =>
      rw [he, hok]
      simp only [Bool.false_eq_true, if_false]
      rw [ha]
      simp

/-- Witness for the amended C2 at a fresh client with supervisor enabled
and a failing driver. -/
theorem start_arms_supervisor_iff_connect_ok_witness :
    ({ MqttClient.init "cid" "host" 1883 60 .TCP true 10 1 with
        supervisor_enabled := true } : ClientState).running = false ∧
      (({ MqttClient.init "cid" "host" 1883 60 .TCP true 10 1 with
            supervisor_enabled := true }).start
          ⟨fun _ => ⟨some "refused", false, false⟩, none, .returns 0 1⟩
          false 10 false 5 0 1).result =
        some ⟨false, 0, none, some "refused", some "Connection error: refused"⟩ ∧
      (({ MqttClient.init "cid" "host" 1883 60 .TCP true 10 1 with
            supervisor_enabled := true }).start
          ⟨fun _ => ⟨some "refused", false, false⟩, none, .returns 0 1⟩
          false 10 false 5 0 1).state.supervisor_thread_alive
        = (({ MqttClient.init "cid" "host" 1883 60 .TCP true 10 1 with
              supervisor_enabled := true } : ClientState).supervisor_thread_alive
            || ((⟨false, 0, none, some "refused",
                  some "Connection error: refused"⟩ : MqttResult).ok
              && ({ MqttClient.init "cid" "host" 1883 60 .TCP true 10 1 with
                    supervisor_enabled := true } : ClientState).supervisor_enabled)) :=
  ⟨rfl, rfl,
   start_arms_supervisor_iff_connect_ok _ _ false false 10 5 0 1 rfl _ rfl⟩

/-- C9: `connect()` on a stopped, disconnected client flips `_running` to
true without starting any dispatch-pool worker (worker flag and thread count
untouched); a subsequent `start()` then short-circuits to `ok=True` with
message "Already running", changing nothing and making no driver call — so
no callback worker ever exists to consume enqueued message callbacks. -/
theorem connect_while_stopped_then_start_is_noop (st : ClientState) (d d2 : Driver)
    (blocking retry : Bool) (timeout retry_interval : ℚ) (max_retries fuel : ℕ)
    (blocking2 retry2 : Bool) (timeout2 retry_interval2 : ℚ) (max_retries2 fuel2 : ℕ)
    (hrun : st.running = false) (hconn : st.is_connected = false)
    (hw : st.callback_worker_running = false) :
    (st.connect d blocking timeout retry retry_interval max_retries fuel).state.running = true ∧
      (st.connect d blocking timeout retry retry_interval max_retries
        fuel).state.callback_worker_running = false ∧
      (st.connect d blocking timeout retry retry_interval max_retries
        fuel).state.callback_workers = st.callback_workers ∧
      ((st.connect d blocking timeout retry retry_interval max_retries fuel).state.start d2
          blocking2 timeout2 retry2 retry_interval2 max_retries2 fuel2)
        = ⟨some ⟨true, 0, none, none, some "Already running"⟩,
            (st.connect d blocking timeout retry retry_interval max_retries fuel).state, []⟩ := by
  have hframe := connect_internal_loop_frame d.connectAttempts blocking retry timeout
    retry_interval max_retries fuel 0 none { st with running := true }
  have hstate : (st.connect d blocking timeout retry retry_interval max_retries fuel).state
      = (({ st with running := true }).connect_internal_loop d.connectAttempts blocking retry
          timeout retry_interval max_retries fuel 0 none).state := by
    simp only [ClientState.connect, hconn, Bool.false_eq_true, if_false, hrun,
      Bool.not_false, if_true]
  have h1 : (st.connect d blocking timeout retry retry_interval max_retries
      fuel).state.running = true := by
    rw [hstate]; exact hframe.1
  have h2 : (st.connect d blocking timeout retry retry_interval max_retries
      fuel).state.callback_worker_running = false := by
    rw [hstate]; exact hframe.2.1.trans hw
  have h3 : (st.connect d blocking timeout retry retry_interval max_retries
      fuel).state.callback_workers = st.callback_workers := by
    rw [hstate]; exact hframe.2.2.1
  refine ⟨h1, h2, h3, ?_⟩
  simp only [ClientState.start, h1, if_true]

/-- Witness for C9 at a fresh client and a driver whose connect succeeds. -/
theorem connect_while_stopped_then_start_is_noop_witness :
    (MqttClient.init "cid" "host" 1883 60 .TCP true 10 2).running = false ∧
      (MqttClient.init "cid" "host" 1883 60 .TCP true 10 2).is_connected = false ∧
      (MqttClient.init "cid" "host" 1883 60 .TCP true 10 2).callback_worker_running = false ∧
      (((MqttClient.init "cid" "host" 1883 60 .TCP true 10 2).connect
          ⟨fun _ => ⟨none, true, true⟩, none, .returns 0 1⟩
          false 10 false 5 0 1).state.running = true ∧
        ((MqttClient.init "cid" "host" 1883 60 .TCP true 10 2).connect
          ⟨fun _ => ⟨none, true, true⟩, none, .returns 0 1⟩
          false 10 false 5 0 1).state.callback_worker_running = false ∧
        ((MqttClient.init "cid" "host" 1883 60 .TCP true 10 2).connect
          ⟨fun _ => ⟨none, true, true⟩, none, .returns 0 1⟩
          false 10 false 5 0 1).state.callback_workers =
          (MqttClient.init "cid" "host" 1883 60 .TCP true 10 2).callback_workers ∧
        (((MqttClient.init "cid" "host" 1883 60 .TCP true 10 2).connect
            ⟨fun _ => ⟨none, true, true⟩, none, .returns 0 1⟩
            false 10 false 5 0 1).state.start
            ⟨fun _ => ⟨none, true, true⟩, none, .returns 0 1⟩ false 10 false 5 0 1)
          = ⟨some ⟨true, 0, none, none, some "Already running"⟩,
              ((MqttClient.init "cid" "host" 1883 60 .TCP true 10 2).connect
                ⟨fun _ => ⟨none, true, true⟩, none, .returns 0 1⟩
                false 10 false 5 0 1).state, []⟩) :=
  ⟨rfl, rfl, rfl,
   connect_while_stopped_then_start_is_noop _ _ _ false false 10 5 0 1
     false false 10 5 0 1 rfl rfl rfl⟩

/-- C6: `publish()` while disconnected: with `auto_reconnect=False` it
returns `ok=False` ("Not connected") with the state untouched and no
transport call; with `auto_reconnect=True` it first runs a full
`reconnect()` — if that fails it returns `ok=False` with a message
describing the reconnect failure, and against a driver whose reconnect and
publish succeed it returns `ok=True` carrying the driver's message id. -/
theorem publish_disconnected_contract (st : ClientState) (d1 d2 : Driver)
    (topic payload : String) (qos : ℕ) (retain : Bool) (fuel : ℕ)
    (hdisc : st.is_connected = false) :
    (st.publish d1 topic payload qos retain false fuel
        = ⟨some ⟨false, 0, none, none, some "Not connected"⟩, st, []⟩) ∧
      (∀ r, (st.reconnect d1 10 fuel).result = some r → r.ok = false →
        st.publish d1 topic payload qos retain true fuel
          = ⟨some ⟨false, 0, none, none,
              some ("Auto-reconnect failed: " ++ optStr r.message)⟩,
            (st.reconnect d1 10 fuel).state, (st.reconnect d1 10 fuel).calls⟩) ∧
      (∀ r mid, d2.publishOutcome = .returns 0 mid →
        (st.reconnect d2 10 fuel).result = some r → r.ok = true →
        (st.publish d2 topic payload qos retain true fuel).result
          = some ⟨true, 0, some mid, none, none⟩) := by
  refine ⟨?_, ?_, ?_⟩
  · simp [ClientState.publish, hdisc]
  · intro r hr hok
    simp only [ClientState.publish, hdisc, Bool.not_false, if_true]
    rw [hr]
    dsimp only
    simp [hok]
  · intro r mid hpub hr hok
    simp only [ClientState.publish, hdisc, Bool.not_false, if_true]
    rw [hr]
    dsimp only
    simp only [hok, Bool.not_true, Bool.false_eq_true, if_false]
    simp [ClientState.publish_transport, hpub, MQTT_ERR_SUCCESS]

/-- Witness for C6 at a fresh client, a driver whose connect always raises
(`d1`) and a driver whose reconnect and publish succeed (`d2`). -/
theorem publish_disconnected_contract_witness :
    (MqttClient.init "cid" "host" 1883 60 .TCP true 10 1).is_connected = false ∧
      ((MqttClient.init "cid" "host" 1883 60 .TCP true 10 1).reconnect
          ⟨fun _ => ⟨some "refused", false, false⟩, none, .returns 0 7⟩ 10 1).result =
        some ⟨false, 0, none, some "refused", some "Connection error: refused"⟩ ∧
      ((MqttClient.init "cid" "host" 1883 60 .TCP true 10 1).reconnect
          ⟨fun _ => ⟨none, true, true⟩, none, .returns 0 7⟩ 10 1).result =
        some ⟨true, 0, none, none, some "Connected"⟩ ∧
      (((MqttClient.init "cid" "host" 1883 60 .TCP true 10 1).publish
          ⟨fun _ => ⟨some "refused", false, false⟩, none, .returns 0 7⟩
          "t" "p" 0 false false 1
          = ⟨some ⟨false, 0, none, none, some "Not connected"⟩,
              MqttClient.init "cid" "host" 1883 60 .TCP true 10 1, []⟩) ∧
        (∀ r, ((MqttClient.init "cid" "host" 1883 60 .TCP true 10 1).reconnect
            ⟨fun _ => ⟨some "refused", false, false⟩, none, .returns 0 7⟩ 10 1).result
              = some r → r.ok = false →
          (MqttClient.init "cid" "host" 1883 60 .TCP true 10 1).publish
            ⟨fun _ => ⟨some "refused", false, false⟩, none, .returns 0 7⟩
            "t" "p" 0 false true 1
            = ⟨some ⟨false, 0, none, none,
                some ("Auto-reconnect failed: " ++ optStr r.message)⟩,
              ((MqttClient.init "cid" "host" 1883 60 .TCP true 10 1).reconnect
                ⟨fun _ => ⟨some "refused", false, false⟩, none, .returns 0 7⟩ 10 1).state,
              ((MqttClient.init "cid" "host" 1883 60 .TCP true 10 1).reconnect
                ⟨fun _ => ⟨some "refused", false, false⟩, none, .returns 0 7⟩ 10 1).calls⟩) ∧
        (∀ r mid, (⟨fun _ => ⟨none, true, true⟩, none,
              .returns 0 7⟩ : Driver).publishOutcome = .returns 0 mid →
          ((MqttClient.init "cid" "host" 1883 60 .TCP true 10 1).reconnect
            ⟨fun _ => ⟨none, true, true⟩, none, .returns 0 7⟩ 10 1).result = some r →
          r.ok = true →
          ((MqttClient.init "cid" "host" 1883 60 .TCP true 10 1).publish
            ⟨fun _ => ⟨none, true, true⟩, none, .returns 0 7⟩
            "t" "p" 0 false true 1).result
            = some ⟨true, 0, some mid, none, none⟩)) :=
  ⟨rfl, rfl, rfl,
   publish_disconnected_contract _ _ _ "t" "p" 0 false 1 rfl⟩

/-- C7 counterexample: with history recording disabled (the constructor
default), an inbound message hitting a full dispatch queue is dropped but NO
"queue_full" history error entry is recorded — `_add_history` returns
immediately unless `enable_history()` was called. -/
theorem on_message_queue_full_not_recorded_by_default :
    ({ MqttClient.init "cid" "host" 1883 60 .TCP true 1 1 with
        on_message_callback := true,
        callback_queue := [⟨"t0", "p0"⟩] } : ClientState).callback_queue.length
      = ({ MqttClient.init "cid" "host" 1883 60 .TCP true 1 1 with
            on_message_callback := true,
            callback_queue := [⟨"t0", "p0"⟩] } : ClientState).callback_queue_max_size ∧
      (({ MqttClient.init "cid" "host" 1883 60 .TCP true 1 1 with
            on_message_callback := true,
            callback_queue := [⟨"t0", "p0"⟩] } : ClientState).on_message_event
          ⟨"t1", "p1"⟩).callback_queue = [⟨"t0", "p0"⟩] ∧
      (({ MqttClient.init "cid" "host" 1883 60 .TCP true 1 1 with
            on_message_callback := true,
            callback_queue := [⟨"t0", "p0"⟩] } : ClientState).on_message_event
          ⟨"t1", "p1"⟩).history.errors = [] :=
  ⟨rfl, rfl, rfl⟩

/-- C7 amended: on an inbound message event with a registered callback and a
positive queue capacity, the enqueue path never grows the queue beyond its
capacity, never loses a task already accepted (the old queue is a prefix of
the new one), and when the queue is at capacity the task is dropped without
blocking and — provided history recording is enabled — a "queue_full" error
entry is appended to the errors ring buffer. -/
theorem on_message_backpressure (st : ClientState) (m : Message)
    (hcb : st.on_message_callback = true)
    (hcap : 0 < st.callback_queue_max_size) :
    (st.callback_queue.length ≤ st.callback_queue_max_size →
        (st.on_message_event m).callback_queue.length ≤ st.callback_queue_max_size) ∧
      (∃ t, (st.on_message_event m).callback_queue = st.callback_queue ++ t) ∧
      (st.callback_queue_max_size ≤ st.callback_queue.length →
        (st.on_message_event m).callback_queue = st.callback_queue ∧
        (st.on_message_event m).history.errors =
          (if st.record_history then
            dequeAppend st.history_max_size st.history.errors
              [("operation", .s "message_queue"), ("error", .s "queue_full"),
                ("topic", .s m.topic)]
          else st.history.errors)) := by
  by_cases hfull : st.callback_queue_max_size ≤ st.callback_queue.length
  · have hcond : (decide (0 < st.callback_queue_max_size) &&
        decide (st.callback_queue_max_size ≤ st.callback_queue.length)) = true := by
      simp [hcap, hfull]
    have hqueue : (st.on_message_event m).callback_queue = st.callback_queue := by
      simp only [ClientState.on_message_event, hcb, if_true, hcond,
        ClientState.addHistory]
      split
      · rfl
      · rfl
    have herrs : (st.on_message_event m).history.errors =
        (if st.record_history then
          dequeAppend st.history_max_size st.history.errors
            [("operation", .s "message_queue"), ("error", .s "queue_full"),
              ("topic", .s m.topic)]
        else st.history.errors) := by
      simp only [ClientState.on_message_event, hcb, if_true, hcond,
        ClientState.addHistory]
      split
      · next h => simp [History.update, h]
      · next h => simp [History.update, h]
    exact ⟨fun hle => by rw [hqueue]; exact hle,
      ⟨[], by rw [hqueue, List.append_nil]⟩,
      fun _ => ⟨hqueue, herrs⟩⟩
  · have hcond : (decide (0 < st.callback_queue_max_size) &&
        decide (st.callback_queue_max_size ≤ st.callback_queue.length)) = false := by
      simp [hfull]
    have hqueue : (st.on_message_event m).callback_queue = st.callback_queue ++ [m] := by
      simp only [ClientState.on_message_event, hcb, if_true, hcond,
        Bool.false_eq_true, if_false]
    refine ⟨fun hle => ?_, ⟨[m], hqueue⟩, fun hge => absurd hge hfull⟩
    rw [hqueue]
    simp only [List.length_append, List.length_cons, List.length_nil]
    omega

/-- Witness for the amended C7 at a capacity-1 client with history enabled
and a full queue. -/
theorem on_message_backpressure_witness :
    (({ MqttClient.init "cid" "host" 1883 60 .TCP true 1 1 with
          on_message_callback := true,
          callback_queue := [⟨"t0", "p0"⟩] } : ClientState).enable_history
        100).on_message_callback = true ∧
      0 < (({ MqttClient.init "cid" "host" 1883 60 .TCP true 1 1 with
            on_message_callback := true,
            callback_queue := [⟨"t0", "p0"⟩] } : ClientState).enable_history
          100).callback_queue_max_size ∧
      ((((({ MqttClient.init "cid" "host" 1883 60 .TCP true 1 1 with
              on_message_callback := true,
              callback_queue := [⟨"t0", "p0"⟩] } : ClientState).enable_history
            100)).callback_queue.length ≤
          ((({ MqttClient.init "cid" "host" 1883 60 .TCP true 1 1 with
              on_message_callback := true,
              callback_queue := [⟨"t0", "p0"⟩] } : ClientState).enable_history
            100)).callback_queue_max_size →
          (((({ MqttClient.init "cid" "host" 1883 60 .TCP true 1 1 with
                on_message_callback := true,
                callback_queue := [⟨"t0", "p0"⟩] } : ClientState).enable_history
              100)).on_message_event ⟨"t1", "p1"⟩).callback_queue.length ≤
            ((({ MqttClient.init "cid" "host" 1883 60 .TCP true 1 1 with
                on_message_callback := true,
                callback_queue := [⟨"t0", "p0"⟩] } : ClientState).enable_history
              100)).callback_queue_max_size) ∧
        (∃ t, (((({ MqttClient.init "cid" "host" 1883 60 .TCP true 1 1 with
                on_message_callback := true,
                callback_queue := [⟨"t0", "p0"⟩] } : ClientState).enable_history
              100)).on_message_event ⟨"t1", "p1"⟩).callback_queue =
            ((({ MqttClient.init "cid" "host" 1883 60 .TCP true 1 1 with
                on_message_callback := true,
                callback_queue := [⟨"t0", "p0"⟩] } : ClientState).enable_history
              100)).callback_queue ++ t) ∧
        (((({ MqttClient.init "cid" "host" 1883 60 .TCP true 1 1 with
              on_message_callback := true,
              callback_queue := [⟨"t0", "p0"⟩] } : ClientState).enable_history
            100)).callback_queue_max_size ≤
          ((({ MqttClient.init "cid" "host" 1883 60 .TCP true 1 1 with
              on_message_callback := true,
              callback_queue := [⟨"t0", "p0"⟩] } : ClientState).enable_history
            100)).callback_queue.length →
          (((({ MqttClient.init "cid" "host" 1883 60 .TCP true 1 1 with
                on_message_callback := true,
                callback_queue := [⟨"t0", "p0"⟩] } : ClientState).enable_history
              100)).on_message_event ⟨"t1", "p1"⟩).callback_queue =
            ((({ MqttClient.init "cid" "host" 1883 60 .TCP true 1 1 with
                on_message_callback := true,
                callback_queue := [⟨"t0", "p0"⟩] } : ClientState).enable_history
              100)).callback_queue ∧
          (((({ MqttClient.init "cid" "host" 1883 60 .TCP true 1 1 with
                on_message_callback := true,
                callback_queue := [⟨"t0", "p0"⟩] } : ClientState).enable_history
              100)).on_message_event ⟨"t1", "p1"⟩).history.errors =
            (if ((({ MqttClient.init "cid" "host" 1883 60 .TCP true 1 1 with
                  on_message_callback := true,
                  callback_queue := [⟨"t0", "p0"⟩] } : ClientState).enable_history
                100)).record_history then
              dequeAppend ((({ MqttClient.init "cid" "host" 1883 60 .TCP true 1 1 with
                    on_message_callback := true,
                    callback_queue := [⟨"t0", "p0"⟩] } : ClientState).enable_history
                  100)).history_max_size
                ((({ MqttClient.init "cid" "host" 1883 60 .TCP true 1 1 with
                    on_message_callback := true,
                    callback_queue := [⟨"t0", "p0"⟩] } : ClientState).enable_history
                  100)).history.errors
                [("operation", .s "message_queue"), ("error", .s "queue_full"),
                  ("topic", .s "t1")]
            else ((({ MqttClient.init "cid" "host" 1883 60 .TCP true 1 1 with
                  on_message_callback := true,
                  callback_queue := [⟨"t0", "p0"⟩] } : ClientState).enable_history
                100)).history.errors))) :=
  ⟨rfl, by decide, on_message_backpressure _ _ rfl (by decide)⟩

/-- C8: `setup_tls` with a certificate but no key, or a key but no
certificate, raises `ValueError` synchronously: nothing is stored (the
state, `tls_config` and `has_tls` included, is unchanged) and no driver
call — in particular no connection attempt — is made. -/
theorem setup_tls_cert_key_mismatch_raises (st : ClientState)
    (ca_certs cert_file key_file key_password : Option String)
    (tls_version : SslTlsVersion) (cert_reqs : SslVerifyMode)
    (ciphers : Option String) (alpn_protocols : Option (List String))
    (tls_insecure : Bool)
    (h : (strTruthy cert_file = true ∧ strTruthy key_file = false) ∨
      (strTruthy key_file = true ∧ strTruthy cert_file = false)) :
    ∃ msg, st.setup_tls ca_certs cert_file key_file key_password tls_version
        cert_reqs ciphers alpn_protocols tls_insecure = (st, [], some msg) ∧
      (st.setup_tls ca_certs cert_file key_file key_password tls_version
        cert_reqs ciphers alpn_protocols tls_insecure).1.has_tls = st.has_tls := by
  rcases h with ⟨h1, h2⟩ | ⟨h1, h2⟩
  · exact ⟨"key_file is required when cert_file is provided",
      by simp [ClientState.setup_tls, h1, h2],
      by simp [ClientState.setup_tls, h1, h2]⟩
  · exact ⟨"cert_file is required when key_file is provided",
      by simp [ClientState.setup_tls, h1, h2],
      by simp [ClientState.setup_tls, h1, h2]⟩

/-- Witness for C8: a certificate without a key. -/
theorem setup_tls_cert_key_mismatch_raises_witness :
    ((strTruthy (some "client.crt") = true ∧ strTruthy none = false) ∨
      (strTruthy none = true ∧ strTruthy (some "client.crt") = false)) ∧
      ∃ msg, (MqttClient.init "cid" "host" 1883 60 .TCP true 10 1).setup_tls
          (some "ca.crt") (some "client.crt") none none .TLSv1_2 .CERT_REQUIRED
          none none false
          = (MqttClient.init "cid" "host" 1883 60 .TCP true 10 1, [], some msg) ∧
        ((MqttClient.init "cid" "host" 1883 60 .TCP true 10 1).setup_tls
          (some "ca.crt") (some "client.crt") none none .TLSv1_2 .CERT_REQUIRED
          none none false).1.has_tls
          = (MqttClient.init "cid" "host" 1883 60 .TCP true 10 1).has_tls :=
  ⟨Or.inl ⟨rfl, rfl⟩,
   setup_tls_cert_key_mismatch_raises _ _ _ _ _ _ _ _ _ _ (Or.inl ⟨rfl, rfl⟩)⟩

/-- C10: a successful `setup_tls` call changes the port to 8883 exactly when
it was 1883 (else leaves it alone), and modifies no other identity field
(`client_id`, `host`, `keepalive`, transport kind, `clean_start`). -/
theorem setup_tls_success_port_upgrade_and_frame (st : ClientState)
    (ca_certs cert_file key_file key_password : Option String)
    (tls_version : SslTlsVersion) (cert_reqs : SslVerifyMode)
    (ciphers : Option String) (alpn_protocols : Option (List String))
    (tls_insecure : Bool)
    (hok : (st.setup_tls ca_certs cert_file key_file key_password tls_version
      cert_reqs ciphers alpn_protocols tls_insecure).2.2 = none) :
    (st.setup_tls ca_certs cert_file key_file key_password tls_version
        cert_reqs ciphers alpn_protocols tls_insecure).1.port
      = (if st.port = 1883 then 8883 else st.port) ∧
      (st.setup_tls ca_certs cert_file key_file key_password tls_version
        cert_reqs ciphers alpn_protocols tls_insecure).1.client_id = st.client_id ∧
      (st.setup_tls ca_certs cert_file key_file key_password tls_version
        cert_reqs ciphers alpn_protocols tls_insecure).1.host = st.host ∧
      (st.setup_tls ca_certs cert_file key_file key_password tls_version
        cert_reqs ciphers alpn_protocols tls_insecure).1.keepalive = st.keepalive ∧
      (st.setup_tls ca_certs cert_file key_file key_password tls_version
        cert_reqs ciphers alpn_protocols tls_insecure).1.transport = st.transport ∧
      (st.setup_tls ca_certs cert_file key_file key_password tls_version
        cert_reqs ciphers alpn_protocols tls_insecure).1.clean_start = st.clean_start := by
  by_cases h1 : strTruthy cert_file && !strTruthy key_file
  · simp [ClientState.setup_tls, h1] at hok
  · by_cases h2 : strTruthy key_file && !strTruthy cert_file
    · simp [ClientState.setup_tls, h1, h2] at hok
    · simp only [ClientState.setup_tls, h1, h2, Bool.false_eq_true, if_false]
      split
      · exact ⟨rfl, rfl, rfl, rfl, rfl, rfl⟩
      · exact ⟨rfl, rfl, rfl, rfl, rfl, rfl⟩

/-- Witness for C10 at a fresh client on the default port 1883 with a full
certificate/key pair: the port becomes 8883. -/
theorem setup_tls_success_port_upgrade_and_frame_witness :
    ((MqttClient.init "cid" "host" 1883 60 .TCP true 10 1).setup_tls
        (some "ca.crt") (some "client.crt") (some "client.key") none .TLSv1_2
        .CERT_REQUIRED none none false).2.2 = none ∧
      (((MqttClient.init "cid" "host" 1883 60 .TCP true 10 1).setup_tls
          (some "ca.crt") (some "client.crt") (some "client.key") none .TLSv1_2
          .CERT_REQUIRED none none false).1.port
        = (if (MqttClient.init "cid" "host" 1883 60 .TCP true 10 1).port = 1883
            then 8883 else (MqttClient.init "cid" "host" 1883 60 .TCP true 10 1).port) ∧
        ((MqttClient.init "cid" "host" 1883 60 .TCP true 10 1).setup_tls
          (some "ca.crt") (some "client.crt") (some "client.key") none .TLSv1_2
          .CERT_REQUIRED none none false).1.client_id
          = (MqttClient.init "cid" "host" 1883 60 .TCP true 10 1).client_id ∧
        ((MqttClient.init "cid" "host" 1883 60 .TCP true 10 1).setup_tls
          (some "ca.crt") (some "client.crt") (some "client.key") none .TLSv1_2
          .CERT_REQUIRED none none false).1.host
          = (MqttClient.init "cid" "host" 1883 60 .TCP true 10 1).host ∧
        ((MqttClient.init "cid" "host" 1883 60 .TCP true 10 1).setup_tls
          (some "ca.crt") (some "client.crt") (some "client.key") none .TLSv1_2
          .CERT_REQUIRED none none false).1.keepalive
          = (MqttClient.init "cid" "host" 1883 60 .TCP true 10 1).keepalive ∧
        ((MqttClient.init "cid" "host" 1883 60 .TCP true 10 1).setup_tls
          (some "ca.crt") (some "client.crt") (some "client.key") none .TLSv1_2
          .CERT_REQUIRED none none false).1.transport
          = (MqttClient.init "cid" "host" 1883 60 .TCP true 10 1).transport ∧
        ((MqttClient.init "cid" "host" 1883 60 .TCP true 10 1).setup_tls
          (some "ca.crt") (some "client.crt") (some "client.key") none .TLSv1_2
          .CERT_REQUIRED none none false).1.clean_start
          = (MqttClient.init "cid" "host" 1883 60 .TCP true 10 1).clean_start) :=
  ⟨rfl,
   setup_tls_success_port_upgrade_and_frame _ _ _ _ _ _ _ _ _ _ rfl⟩

end NodiLibs
